import Mathlib

/-
Verification of the token-lifecycle, mail-dispatch, OAuth-callback and
email-webhook behaviour of src/main.py, shallowly embedded in Lean.

Modelling conventions:
- The gmail_tokens table is a `List CredRecord` in insertion order; the
  store assigns `created_at` at insertion time, modelled as the current
  clock value passed to the operation.
- A provider token response is the HTTP status together with the JSON
  body; a JSON field that may be absent is an `Option` (absence of the
  key corresponds to `none`, and an unguarded dict access on an absent
  key is the `keyError` outcome).
- Clock values are seconds since epoch as `Nat`.
- Each operation returns its outcome, the resulting store, and whether
  the provider token endpoint was contacted.
-/

namespace Backend

/-- One row of the gmail_tokens table (src/main.py lines 118-125 and
165-172); `created_at` is assigned by the store at insertion. -/
structure CredRecord where
  user_email : String
  access_token : String
  refresh_token : String
  token_type : String
  scope : String
  expires_at : Nat
  created_at : Nat
deriving DecidableEq

/-- An HTTP response of the identity provider token endpoint: the status
code and the JSON body fields the code may read; a field absent from the
body is `none`. -/
structure TokenResponse where
  status : Nat
  access_token : Option String
  refresh_token : Option String
  token_type : Option String
  scope : Option String
  expires_in : Option Nat
deriving DecidableEq

/-- Outcome of `refresh_gmail_token`:
`ok` returns an access token; `notAuthorized` is HTTPException 404
(line 136); `upstreamAuthError` is HTTPException 400 carrying the raw
provider payload (line 159); `keyError` is an unhandled Python KeyError
from an unguarded dict access. -/
inductive TLMOutcome where
  | ok (access : String)
  | notAuthorized
  | upstreamAuthError (payload : TokenResponse)
  | keyError (key : String)
deriving DecidableEq

/-- Result of one run of `refresh_gmail_token`: the outcome, the store
after the run, and whether the provider token endpoint was contacted. -/
structure RefreshRun where
  outcome : TLMOutcome
  store : List CredRecord
  refreshCalled : Bool
deriving DecidableEq

/-- `order("created_at", desc=True).limit(1)` over a list of records:
an element with maximal `created_at`, `none` on the empty list. -/
def pickLatest : List CredRecord → Option CredRecord
  | [] => none
  | r :: rs =>
    match pickLatest rs with
    | none => some r
    | some best => if best.created_at ≥ r.created_at then some best else some r

/-- The supabase query of src/main.py line 133: rows with the given
`user_email`, ordered by `created_at` descending, limit 1. -/
def latestRecord (store : List CredRecord) (user_email : String) : Option CredRecord :=
  pickLatest (store.filter (fun r => r.user_email == user_email))

/-- src/main.py lines 131-174, `refresh_gmail_token`: fetch the latest
record; 404 when none; return the stored access token when
`expires_at > now`; otherwise contact the token endpoint, 400 with the
raw payload when the body lacks `access_token`, else insert a new row
carrying forward `refresh_token`, `token_type`, `scope` from the old
record with `expires_at = now + expires_in`, and return the new access
token. The HTTP status of the provider response is never read. -/
def refresh_gmail_token (store : List CredRecord) (user_email : String) (now : Nat)
    (resp : TokenResponse) : RefreshRun :=
  match latestRecord store user_email with
  | none => ⟨.notAuthorized, store, false⟩
  | some record =>
    if record.expires_at > now then
      ⟨.ok record.access_token, store, false⟩
    else
      match resp.access_token with
      | none => ⟨.upstreamAuthError resp, store, true⟩
      | some new_access =>
        match resp.expires_in with
        | none => ⟨.keyError "expires_in", store, true⟩
        | some expires_in =>
          ⟨.ok new_access,
           store ++ [⟨user_email, new_access, record.refresh_token, record.token_type,
                      record.scope, now + expires_in, now⟩],
           true⟩

/-- Outcome of the OAuth callback `gmail_callback`: `saved` with the
hardcoded email, `httpError 400` carrying the raw payload when the body
lacks `access_token`, or an unhandled KeyError from a later unguarded
dict access. -/
inductive CallbackOutcome where
  | saved (email : String)
  | httpError (status : Nat) (payload : TokenResponse)
  | keyError (key : String)
deriving DecidableEq

/-- Result of one run of `gmail_callback`. -/
structure CallbackRun where
  outcome : CallbackOutcome
  store : List CredRecord
deriving DecidableEq

/-- src/main.py lines 88-127, `gmail_callback`: after the code exchange,
raise 400 when the body lacks `access_token`; otherwise read
`refresh_token`, `token_type`, `scope`, `expires_in` by unguarded dict
access (KeyError when absent, in that order), then insert a record for
the hardcoded user email. -/
def gmail_callback (tokens : TokenResponse) (now : Nat) (store : List CredRecord) :
    CallbackRun :=
  match tokens.access_token with
  | none => ⟨.httpError 400 tokens, store⟩
  | some access_token =>
    match tokens.refresh_token with
    | none => ⟨.keyError "refresh_token", store⟩
    | some refresh_token =>
      match tokens.token_type with
      | none => ⟨.keyError "token_type", store⟩
      | some token_type =>
        match tokens.scope with
        | none => ⟨.keyError "scope", store⟩
        | some scope =>
          match tokens.expires_in with
          | none => ⟨.keyError "expires_in", store⟩
          | some expires_in =>
            ⟨.saved "prod.tkmusic@gmail.com",
             store ++ [⟨"prod.tkmusic@gmail.com", access_token, refresh_token,
                        token_type, scope, now + expires_in, now⟩]⟩

/-- UTF-8 encoding of one Unicode code point, as Python
`str.encode("utf-8")` does per character. -/
def utf8Bytes (c : Nat) : List Nat :=
  if c < 128 then [c]
  else if c < 2048 then [192 + c / 64, 128 + c % 64]
  else if c < 65536 then [224 + c / 4096, 128 + c / 64 % 64, 128 + c % 64]
  else [240 + c / 262144, 128 + c / 4096 % 64, 128 + c / 64 % 64, 128 + c % 64]

/-- The UTF-8 byte sequence of a string, as `raw_email.encode("utf-8")`
at src/main.py line 185. -/
def strBytes (s : String) : List Nat :=
  (s.data.map Char.toNat).flatMap utf8Bytes

/-- The URL-safe base64 alphabet used by Python `base64.urlsafe_b64encode`. -/
def b64Alphabet : List Char :=
  "ABCDEFGHIJKLMNOPQRSTUVWXYZabcdefghijklmnopqrstuvwxyz0123456789-_".data

/-- The alphabet character of a 6-bit value. -/
def al (n : Nat) : Char := b64Alphabet.getD n 'A'

/-- The 6-bit value of an alphabet character, `none` for a character
outside the alphabet (such as the padding character). -/
def b64Val (c : Char) : Option Nat := b64Alphabet.findIdx? (fun x => x == c)

/-- URL-safe base64 with padding over a byte list, as Python
`base64.urlsafe_b64encode` at src/main.py line 185. -/
def b64url : List Nat → List Char
  | [] => []
  | [a] => [al (a / 4), al (a % 4 * 16), '=', '=']
  | [a, b] => [al (a / 4), al (a % 4 * 16 + b / 16), al (b % 16 * 4), '=']
  | a :: b :: c :: rest =>
    al (a / 4) :: al (a % 4 * 16 + b / 16) :: al (b % 16 * 4 + c / 64) :: al (c % 64)
      :: b64url rest

/-- Base64url decoding with padding, used to state that the outbound
payload decodes back to the envelope. -/
def b64urlDecode : List Char → Option (List Nat)
  | [] => some []
  | c1 :: c2 :: c3 :: c4 :: rest =>
    match b64Val c1, b64Val c2, b64Val c3, b64Val c4 with
    | some a, some b, some c, some d =>
      (b64urlDecode rest).map
        (fun tl => (a * 4 + b / 16) :: (b % 16 * 16 + c / 4) :: (c % 4 * 64 + d) :: tl)
    | some a, some b, some c, none =>
      if c4 = '=' ∧ rest = [] then some [a * 4 + b / 16, b % 16 * 16 + c / 4] else none
    | some a, some b, none, none =>
      if c3 = '=' ∧ c4 = '=' ∧ rest = [] then some [a * 4 + b / 16] else none
    | _, _, _, _ => none
  | _ => none

/-- The message envelope of src/main.py line 183. -/
def mkRawEmail (to_addr subject message_body : String) : String :=
  "To: " ++ to_addr ++ "\r\nSubject: " ++ subject ++ "\r\n\r\n" ++ message_body

/-- An HTTP response of the mail provider send endpoint; the JSON body
is kept opaque. -/
structure SendResponse where
  status : Nat
  body : String
deriving DecidableEq

/-- Outcome of `send_gmail_message`: success with the provider body,
HTTPException 500 carrying the raw provider body (line 198), or a
propagated failure of the token lifecycle manager. -/
inductive SendOutcome where
  | ok (body : String)
  | upstreamSendError (status : Nat) (payload : String)
  | authFailure (e : TLMOutcome)
deriving DecidableEq

/-- Result of one run of `send_gmail_message`: the outcome, the `raw`
field of the outbound payload (`none` when no send request was made),
the store after the run, and whether the token endpoint was contacted. -/
structure SendRun where
  outcome : SendOutcome
  payload : Option String
  store : List CredRecord
  refreshCalled : Bool
deriving DecidableEq

/-- src/main.py lines 178-200, `send_gmail_message`: obtain a token via
`refresh_gmail_token`, build the envelope, URL-safe base64 encode its
UTF-8 bytes into the `raw` payload field, POST it, and raise
HTTPException 500 with the raw body exactly when the status is not 200. -/
def send_gmail_message (store : List CredRecord) (user_email to_addr subject message_body : String)
    (now : Nat) (refreshResp : TokenResponse) (sendResp : SendResponse) : SendRun :=
  let r := refresh_gmail_token store user_email now refreshResp
  match r.outcome with
  | .ok _ =>
    let raw_email := mkRawEmail to_addr subject message_body
    let encoded_message := String.mk (b64url (strBytes raw_email))
    if sendResp.status ≠ 200 then
      ⟨.upstreamSendError 500 sendResp.body, some encoded_message, r.store, r.refreshCalled⟩
    else
      ⟨.ok sendResp.body, some encoded_message, r.store, r.refreshCalled⟩
  | e => ⟨.authFailure e, none, r.store, r.refreshCalled⟩

/-- The body of the email webhook request (src/main.py lines 47-51). -/
structure EmailPayload where
  inbox_id : String
  sender : String
  subject : String
  body : String
deriving DecidableEq

/-- One row of the email_logs table (src/main.py lines 255-263). -/
structure EmailLogRecord where
  inbox_id : String
  sender : String
  subject : String
  body : String
  ai_reply : String
  confidence : Rat
  status : String
deriving DecidableEq

/-- The response body of the email webhook (src/main.py line 265). -/
structure WebhookResponse where
  status : String
  reply : String
deriving DecidableEq

/-- The fixed fallback reply of src/main.py line 252. -/
def fallbackReply : String := "There was an error generating a reply."

/-- src/main.py lines 217-265, `process_email`: the generation call
either succeeds with some content or fails (`none`); on failure the
reply is the fixed fallback; either way the status is "draft", exactly
one row is appended to email_logs with a static confidence of 0.8, and
the status and reply are returned. -/
def process_email (payload : EmailPayload) (generation : Option String)
    (logs : List EmailLogRecord) : List EmailLogRecord × WebhookResponse :=
  let ai_reply := match generation with
    | some content => content
    | none => fallbackReply
  let status := "draft"
  (logs ++ [⟨payload.inbox_id, payload.sender, payload.subject, payload.body,
             ai_reply, 4 / 5, status⟩],
   ⟨status, ai_reply⟩)

/-- `pickLatest` returns `none` exactly on the empty list. -/
theorem pickLatest_eq_none {l : List CredRecord} : pickLatest l = none ↔ l = [] := by
  cases l with
  | nil => simp [pickLatest]
  | cons r rs =>
    cases h : pickLatest rs with
    | none => simp [pickLatest, h]
    | some best =>
      simp only [pickLatest, h]
      split <;> simp

/-- `pickLatest` returns an element of the list. -/
theorem pickLatest_mem : ∀ {l : List CredRecord} {r : CredRecord},
    pickLatest l = some r → r ∈ l := by
  intro l
  induction l with
  | nil => intro r h; simp [pickLatest] at h
  | cons a rs ih =>
    intro r h
    cases hp : pickLatest rs with
    | none =>
      simp only [pickLatest, hp] at h
      injection h with h
      subst h
      exact List.mem_cons_self a rs
    | some best =>
      simp only [pickLatest, hp] at h
      by_cases hcmp : best.created_at ≥ a.created_at
      · rw [if_pos hcmp] at h
        injection h with h
        subst h
        exact List.mem_cons_of_mem a (ih hp)
      · rw [if_neg hcmp] at h
        injection h with h
        subst h
        exact List.mem_cons_self a rs

/-- `pickLatest` returns an element of maximal `created_at`. -/
theorem pickLatest_le : ∀ {l : List CredRecord} {r : CredRecord}, pickLatest l = some r →
    ∀ x ∈ l, x.created_at ≤ r.created_at := by
  intro l
  induction l with
  | nil => intro r h; simp [pickLatest] at h
  | cons a rs ih =>
    intro r h x hx
    cases hp : pickLatest rs with
    | none =>
      simp only [pickLatest, hp] at h
      injection h with h
      subst h
      have hrs : rs = [] := pickLatest_eq_none.mp hp
      subst hrs
      simp only [List.mem_singleton] at hx
      subst hx
      exact Nat.le_refl _
    | some best =>
      simp only [pickLatest, hp] at h
      by_cases hcmp : best.created_at ≥ a.created_at
      · rw [if_pos hcmp] at h
        injection h with h
        subst h
        rcases List.mem_cons.mp hx with hxa | hxs
        · subst hxa; exact hcmp
        · exact ih hp x hxs
      · rw [if_neg hcmp] at h
        injection h with h
        subst h
        rcases List.mem_cons.mp hx with hxa | hxs
        · subst hxa; exact Nat.le_refl _
        · exact Nat.le_trans (ih hp x hxs) (by omega)

/-- When some record matches the identity, the latest-record query
returns a record. -/
theorem latestRecord_isSome {store : List CredRecord} {user_email : String}
    (h : ∃ r ∈ store, r.user_email = user_email) :
    ∃ record, latestRecord store user_email = some record := by
  unfold latestRecord
  cases hp : pickLatest (store.filter (fun r => r.user_email == user_email)) with
  | none =>
    obtain ⟨r, hr, hu⟩ := h
    have hmem : r ∈ store.filter (fun r => r.user_email == user_email) :=
      List.mem_filter.mpr ⟨hr, by simp [hu]⟩
    rw [pickLatest_eq_none.mp hp] at hmem
    simp at hmem
  | some record => exact ⟨record, rfl⟩

/-- The record returned by the latest-record query is a stored record of
the identity with maximal `created_at` among them. -/
theorem latestRecord_spec {store : List CredRecord} {user_email : String} {record : CredRecord}
    (h : latestRecord store user_email = some record) :
    record ∈ store ∧ record.user_email = user_email ∧
      ∀ r ∈ store, r.user_email = user_email → r.created_at ≤ record.created_at := by
  have hmem := pickLatest_mem h
  rw [List.mem_filter] at hmem
  refine ⟨hmem.1, by simpa using hmem.2, ?_⟩
  intro r hr hu
  exact pickLatest_le h r (List.mem_filter.mpr ⟨hr, by simp [hu]⟩)

/-- When no record matches the identity, the latest-record query returns
`none`. -/
theorem latestRecord_eq_none {store : List CredRecord} {user_email : String}
    (h : ∀ r ∈ store, r.user_email ≠ user_email) :
    latestRecord store user_email = none := by
  unfold latestRecord
  rw [pickLatest_eq_none]
  rw [List.filter_eq_nil_iff]
  intro r hr
  simp [h r hr]

/-- Claim C1, counterexample: with an expired latest record holding
refresh token R1, a successful refresh exchange whose response carries a
provider-issued refresh token R2 still writes a record carrying forward
R1 — the provider-issued refresh token is never used. -/
theorem c1_counterexample :
    (⟨200, some "A2", some "R2", none, none, some 3600⟩ : TokenResponse).refresh_token =
      some "R2" ∧
    refresh_gmail_token [⟨"u", "A1", "R1", "Bearer", "s", 999, 500⟩] "u" 1000
        ⟨200, some "A2", some "R2", none, none, some 3600⟩ =
      ⟨.ok "A2",
       [⟨"u", "A1", "R1", "Bearer", "s", 999, 500⟩,
        ⟨"u", "A2", "R1", "Bearer", "s", 4600, 1000⟩], true⟩ ∧
    ("R1" : String) ≠ "R2" := by
  decide

/-- Claim C1, amended: for an identity whose latest stored record is
expired, when the refresh exchange succeeds the manager computes the new
expires_at as now plus expires_in, writes a new record that carries
forward refresh_token, token_type and scope from the old record — the
refresh token always comes from the old record; any refresh token in the
provider response is ignored — and returns the new access token. -/
theorem c1_refresh_success_writes (store : List CredRecord) (user_email : String) (now : Nat)
    (resp : TokenResponse) (record : CredRecord) (new_access : String) (expires_in : Nat)
    (h : latestRecord store user_email = some record)
    (hexp : record.expires_at ≤ now)
    (ha : resp.access_token = some new_access)
    (he : resp.expires_in = some expires_in) :
    refresh_gmail_token store user_email now resp =
      ⟨.ok new_access,
       store ++ [⟨user_email, new_access, record.refresh_token, record.token_type,
                  record.scope, now + expires_in, now⟩], true⟩ := by
  simp only [refresh_gmail_token, h]
  rw [if_neg (Nat.not_lt.mpr hexp), ha, he]

/-- Witness for claim C1 at a concrete expired record and a concrete
successful refresh response. -/
theorem c1_witness :
    refresh_gmail_token [⟨"u", "A1", "R1", "Bearer", "s", 999, 500⟩] "u" 1000
        ⟨200, some "A2", none, none, none, some 3600⟩ =
      ⟨.ok "A2",
       [⟨"u", "A1", "R1", "Bearer", "s", 999, 500⟩] ++
         [⟨"u", "A2", "R1", "Bearer", "s", 1000 + 3600, 1000⟩], true⟩ :=
  c1_refresh_success_writes [⟨"u", "A1", "R1", "Bearer", "s", 999, 500⟩] "u" 1000
    ⟨200, some "A2", none, none, none, some 3600⟩
    ⟨"u", "A1", "R1", "Bearer", "s", 999, 500⟩ "A2" 3600
    (by decide) (by decide) rfl rfl

/-- Claim C2: with a single stored record whose refresh token is R1 and
whose expires_at is one second in the past, and a refresh response with
access token A2 and expires_in 3600, the manager returns A2 and the
store afterwards holds exactly two records for the identity, the newer
one (the one of maximal created_at) carrying access token A2, refresh
token R1 and expires_at equal to the refresh time plus 3600. -/
theorem c2_end_to_end_scenario :
    refresh_gmail_token [⟨"u", "A1", "R1", "Bearer", "s", 999, 500⟩] "u" 1000
        ⟨200, some "A2", none, none, none, some 3600⟩ =
      ⟨.ok "A2",
       [⟨"u", "A1", "R1", "Bearer", "s", 999, 500⟩,
        ⟨"u", "A2", "R1", "Bearer", "s", 1000 + 3600, 1000⟩], true⟩ ∧
    latestRecord
        [⟨"u", "A1", "R1", "Bearer", "s", 999, 500⟩,
         ⟨"u", "A2", "R1", "Bearer", "s", 1000 + 3600, 1000⟩] "u" =
      some ⟨"u", "A2", "R1", "Bearer", "s", 1000 + 3600, 1000⟩ := by
  decide

/-- Claim C3: when the latest record is still valid (expires_at strictly
greater than now) the manager returns its stored access token with no
network call and an unchanged store; when expires_at is less than or
equal to now — the boundary case included — the refresh exchange is
attempted before any token is returned. -/
theorem c3_expiry_boundary (store : List CredRecord) (user_email : String) (now : Nat)
    (resp : TokenResponse) (record : CredRecord)
    (h : latestRecord store user_email = some record) :
    (record.expires_at > now →
      refresh_gmail_token store user_email now resp =
        ⟨.ok record.access_token, store, false⟩) ∧
    (record.expires_at ≤ now →
      (refresh_gmail_token store user_email now resp).refreshCalled = true) := by
  constructor
  · intro hv
    simp only [refresh_gmail_token, h]
    rw [if_pos hv]
  · intro he
    simp only [refresh_gmail_token, h]
    rw [if_neg (Nat.not_lt.mpr he)]
    cases ha : resp.access_token with
    | none => rfl
    | some a =>
      cases hei : resp.expires_in with
      | none => rfl
      | some e => rfl

/-- Witness for claim C3: a valid record is returned untouched with no
network call, and a record expiring exactly now triggers the refresh
exchange. -/
theorem c3_witness :
    refresh_gmail_token [⟨"u", "A1", "R1", "Bearer", "s", 999, 500⟩] "u" 500
        ⟨200, none, none, none, none, none⟩ =
      ⟨.ok "A1", [⟨"u", "A1", "R1", "Bearer", "s", 999, 500⟩], false⟩ ∧
    (refresh_gmail_token [⟨"u", "A1", "R1", "Bearer", "s", 999, 500⟩] "u" 999
        ⟨200, none, none, none, none, none⟩).refreshCalled = true := by
  constructor
  · exact (c3_expiry_boundary [⟨"u", "A1", "R1", "Bearer", "s", 999, 500⟩] "u" 500
      ⟨200, none, none, none, none, none⟩ ⟨"u", "A1", "R1", "Bearer", "s", 999, 500⟩
      (by decide)).1 (by decide)
  · exact (c3_expiry_boundary [⟨"u", "A1", "R1", "Bearer", "s", 999, 500⟩] "u" 999
      ⟨200, none, none, none, none, none⟩ ⟨"u", "A1", "R1", "Bearer", "s", 999, 500⟩
      (by decide)).2 (by decide)

/-- Claim C4, counterexample: a refresh response with an error status
(400) whose body nevertheless carries an access token is treated as a
success — the manager returns the token and writes a record instead of
failing with the auth error and leaving the store unchanged; the HTTP
status of the refresh response is never consulted. -/
theorem c4_counterexample :
    (⟨400, some "A2", none, none, none, some 3600⟩ : TokenResponse).status = 400 ∧
    refresh_gmail_token [⟨"u", "A1", "R1", "Bearer", "s", 999, 500⟩] "u" 1000
        ⟨400, some "A2", none, none, none, some 3600⟩ =
      ⟨.ok "A2",
       [⟨"u", "A1", "R1", "Bearer", "s", 999, 500⟩,
        ⟨"u", "A2", "R1", "Bearer", "s", 4600, 1000⟩], true⟩ := by
  decide

/-- Claim C4, amended: for an identity whose latest stored record is
expired, the manager fails with the upstream auth error carrying the raw
provider payload exactly when the response body lacks an access token,
and on that failure the store is unchanged; the HTTP status of the
response is not consulted. -/
theorem c4_missing_access_token (store : List CredRecord) (user_email : String) (now : Nat)
    (resp : TokenResponse) (record : CredRecord)
    (h : latestRecord store user_email = some record)
    (hexp : record.expires_at ≤ now) :
    ((refresh_gmail_token store user_email now resp).outcome = .upstreamAuthError resp ↔
      resp.access_token = none) ∧
    (resp.access_token = none →
      refresh_gmail_token store user_email now resp = ⟨.upstreamAuthError resp, store, true⟩) := by
  have hne := Nat.not_lt.mpr hexp
  cases ha : resp.access_token with
  | none =>
    have hrun : refresh_gmail_token store user_email now resp =
        ⟨.upstreamAuthError resp, store, true⟩ := by
      simp only [refresh_gmail_token, h]
      rw [if_neg hne, ha]
    exact ⟨by simp [hrun], fun _ => hrun⟩
  | some a =>
    cases hei : resp.expires_in with
    | none =>
      have hrun : refresh_gmail_token store user_email now resp =
          ⟨.keyError "expires_in", store, true⟩ := by
        simp only [refresh_gmail_token, h]
        rw [if_neg hne, ha, hei]
      refine ⟨?_, by simp⟩
      rw [hrun]
      simp
    | some e =>
      have hrun : (refresh_gmail_token store user_email now resp).outcome = .ok a := by
        simp only [refresh_gmail_token, h]
        rw [if_neg hne, ha, hei]
      refine ⟨?_, by simp⟩
      rw [hrun]
      simp

/-- Witness for claim C4: with a concrete expired record and a concrete
response lacking an access token, the manager raises the auth error with
the raw payload and the store is unchanged. -/
theorem c4_witness :
    refresh_gmail_token [⟨"u", "A1", "R1", "Bearer", "s", 999, 500⟩] "u" 1000
        ⟨400, none, none, none, none, none⟩ =
      ⟨.upstreamAuthError ⟨400, none, none, none, none, none⟩,
       [⟨"u", "A1", "R1", "Bearer", "s", 999, 500⟩], true⟩ :=
  (c4_missing_access_token [⟨"u", "A1", "R1", "Bearer", "s", 999, 500⟩] "u" 1000
    ⟨400, none, none, none, none, none⟩ ⟨"u", "A1", "R1", "Bearer", "s", 999, 500⟩
    (by decide) (by decide)).2 rfl

/-- Claim C5: for an identity with no stored credential record, the
manager fails with the not-authorized error, makes no network call and
writes nothing. -/
theorem c5_no_record_not_authorized (store : List CredRecord) (user_email : String)
    (now : Nat) (resp : TokenResponse)
    (h : ∀ r ∈ store, r.user_email ≠ user_email) :
    refresh_gmail_token store user_email now resp = ⟨.notAuthorized, store, false⟩ := by
  unfold refresh_gmail_token
  rw [latestRecord_eq_none h]

/-- Witness for claim C5 on the empty store. -/
theorem c5_witness :
    refresh_gmail_token [] "u" 0 ⟨200, none, none, none, none, none⟩ =
      ⟨.notAuthorized, [], false⟩ :=
  c5_no_record_not_authorized [] "u" 0 ⟨200, none, none, none, none, none⟩ (by simp)

/-- Claim C6: for an identity with at least one stored record, the
manager selects a stored record of that identity with maximal
created_at, and bases both its validity decision and its return value on
it: while that record is valid its access token is returned with nothing
else happening. -/
theorem c6_latest_record_selected (store : List CredRecord) (user_email : String)
    (h : ∃ r ∈ store, r.user_email = user_email) :
    ∃ record, latestRecord store user_email = some record ∧ record ∈ store ∧
      record.user_email = user_email ∧
      (∀ r ∈ store, r.user_email = user_email → r.created_at ≤ record.created_at) ∧
      (∀ now resp, record.expires_at > now →
        refresh_gmail_token store user_email now resp =
          ⟨.ok record.access_token, store, false⟩) := by
  obtain ⟨record, hrec⟩ := latestRecord_isSome h
  obtain ⟨hmem, hu, hmax⟩ := latestRecord_spec hrec
  refine ⟨record, hrec, hmem, hu, hmax, ?_⟩
  intro now resp hv
  simp only [refresh_gmail_token, hrec]
  rw [if_pos hv]

/-- Witness for claim C6 on a concrete two-record store: the newer
record is selected. -/
theorem c6_witness :
    ∃ record,
      latestRecord [⟨"u", "A1", "R1", "Bearer", "s", 999, 500⟩,
        ⟨"u", "A2", "R1", "Bearer", "s", 4600, 1000⟩] "u" = some record ∧
      record ∈ ([⟨"u", "A1", "R1", "Bearer", "s", 999, 500⟩,
        ⟨"u", "A2", "R1", "Bearer", "s", 4600, 1000⟩] : List CredRecord) ∧
      record.user_email = "u" ∧
      (∀ r ∈ ([⟨"u", "A1", "R1", "Bearer", "s", 999, 500⟩,
        ⟨"u", "A2", "R1", "Bearer", "s", 4600, 1000⟩] : List CredRecord),
        r.user_email = "u" → r.created_at ≤ record.created_at) ∧
      (∀ now resp, record.expires_at > now →
        refresh_gmail_token [⟨"u", "A1", "R1", "Bearer", "s", 999, 500⟩,
          ⟨"u", "A2", "R1", "Bearer", "s", 4600, 1000⟩] "u" now resp =
          ⟨.ok record.access_token,
           [⟨"u", "A1", "R1", "Bearer", "s", 999, 500⟩,
            ⟨"u", "A2", "R1", "Bearer", "s", 4600, 1000⟩], false⟩) :=
  c6_latest_record_selected
    [⟨"u", "A1", "R1", "Bearer", "s", 999, 500⟩,
     ⟨"u", "A2", "R1", "Bearer", "s", 4600, 1000⟩] "u"
    ⟨⟨"u", "A1", "R1", "Bearer", "s", 999, 500⟩, by simp, rfl⟩

/-- Claim C8, counterexample: a send response with the 2xx status 201 is
not treated as success — the dispatch client raises the upstream send
error, because the code accepts exactly status 200. -/
theorem c8_counterexample :
    (⟨201, "resp-body"⟩ : SendResponse).status = 201 ∧
    (send_gmail_message [⟨"u", "A1", "R1", "Bearer", "s", 2000, 500⟩] "u" "t@e.com" "Hi" "B"
        1000 ⟨200, none, none, none, none, none⟩ ⟨201, "resp-body"⟩).outcome =
      .upstreamSendError 500 "resp-body" := by
  decide

/-- Claim C8, amended: once a token is obtained, the dispatch client
fails with the upstream send error carrying the raw provider body if and
only if the response status is not exactly 200; a status-200 response is
treated as success and its body returned. -/
theorem c8_send_status_200_only (store : List CredRecord)
    (user_email to_addr subject message_body : String) (now : Nat)
    (refreshResp : TokenResponse) (sendResp : SendResponse) (tok : String)
    (h : (refresh_gmail_token store user_email now refreshResp).outcome = .ok tok) :
    ((send_gmail_message store user_email to_addr subject message_body now refreshResp
        sendResp).outcome = .upstreamSendError 500 sendResp.body ↔ sendResp.status ≠ 200) ∧
    (sendResp.status = 200 →
      (send_gmail_message store user_email to_addr subject message_body now refreshResp
        sendResp).outcome = .ok sendResp.body) := by
  simp only [send_gmail_message, h]
  by_cases hs : sendResp.status = 200
  · simp [hs]
  · simp [hs]

/-- Witness for claim C8: with a valid cached token and a concrete
status-500 send response, the dispatch client raises the upstream send
error carrying the body. -/
theorem c8_witness :
    (send_gmail_message [⟨"u", "A1", "R1", "Bearer", "s", 2000, 500⟩] "u" "t@e.com" "Hi" "B"
        1000 ⟨200, none, none, none, none, none⟩ ⟨500, "err"⟩).outcome =
      .upstreamSendError 500 "err" :=
  ((c8_send_status_200_only [⟨"u", "A1", "R1", "Bearer", "s", 2000, 500⟩] "u" "t@e.com"
    "Hi" "B" 1000 ⟨200, none, none, none, none, none⟩ ⟨500, "err"⟩ "A1"
    (by decide)).1).mpr (by decide)

/-- Claim C9: every webhook invocation, generation success or failure,
appends exactly one record to the log store and returns; the logged
reply and status equal the returned ones, and on generation failure the
reply is the fixed fallback string and the status is "draft". -/
theorem c9_webhook_single_append (payload : EmailPayload) (generation : Option String)
    (logs : List EmailLogRecord) :
    (process_email payload generation logs).1 =
      logs ++ [⟨payload.inbox_id, payload.sender, payload.subject, payload.body,
                generation.getD fallbackReply, 4 / 5, "draft"⟩] ∧
    (process_email payload generation logs).2 =
      ⟨"draft", generation.getD fallbackReply⟩ ∧
    (process_email payload none logs).2 = ⟨"draft", fallbackReply⟩ := by
  cases generation <;> simp [process_email]

/-- Claim C10: a token response that carries an access token but omits
the refresh token makes the OAuth callback fail with an unhandled
KeyError on the unguarded dict access, not with the 400 auth error the
contract specifies, and nothing is written. -/
theorem c10_callback_keyerror :
    gmail_callback ⟨200, some "A", none, some "Bearer", some "sc", some 3600⟩ 1000 [] =
      ⟨.keyError "refresh_token", []⟩ ∧
    ∀ p, (gmail_callback ⟨200, some "A", none, some "Bearer", some "sc", some 3600⟩ 1000
        []).outcome ≠ .httpError 400 p := by
  refine ⟨rfl, fun p h => ?_⟩
  simp [gmail_callback] at h

/-- Decoding an alphabet character recovers its 6-bit value. -/
theorem b64Val_al : ∀ n < 64, b64Val (al n) = some n := by decide

/-- The padding character is outside the alphabet. -/
theorem b64Val_pad : b64Val '=' = none := by decide

/-- Base64url decoding inverts base64url encoding on byte lists. -/
theorem b64url_roundtrip : ∀ bs : List Nat, (∀ b ∈ bs, b < 256) →
    b64urlDecode (b64url bs) = some bs := by
  intro bs
  induction bs using b64url.induct with
  | case1 => intro _; rfl
  | case2 a =>
    intro h
    have ha : a < 256 := h a (by simp)
    simp only [b64url, b64urlDecode, b64Val_al (a / 4) (by omega),
      b64Val_al (a % 4 * 16) (by omega), b64Val_pad]
    simp
    omega
  | case3 a b =>
    intro h
    have ha : a < 256 := h a (by simp)
    have hb : b < 256 := h b (by simp)
    simp only [b64url, b64urlDecode, b64Val_al (a / 4) (by omega),
      b64Val_al (a % 4 * 16 + b / 16) (by omega), b64Val_al (b % 16 * 4) (by omega),
      b64Val_pad]
    simp
    omega
  | case4 a b c rest ih =>
    intro h
    have ha : a < 256 := h a (by simp)
    have hb : b < 256 := h b (by simp)
    have hc : c < 256 := h c (by simp)
    have hrest : ∀ x ∈ rest, x < 256 := fun x hx => h x (by simp [hx])
    simp only [b64url, b64urlDecode, b64Val_al (a / 4) (by omega),
      b64Val_al (a % 4 * 16 + b / 16) (by omega), b64Val_al (b % 16 * 4 + c / 64) (by omega),
      b64Val_al (c % 64) (by omega), ih hrest]
    simp
    refine ⟨by omega, by omega, by omega⟩

/-- Every Unicode code point is below 1114112. -/
theorem char_toNat_lt (c : Char) : c.toNat < 1114112 := by
  have h : c.val.toNat < 55296 ∨ (57344 ≤ c.val.toNat ∧ c.val.toNat < 1114112) := c.valid
  show c.val.toNat < 1114112
  omega

/-- UTF-8 bytes of a valid code point are bytes. -/
theorem utf8Bytes_lt {c : Nat} (hc : c < 1114112) : ∀ b ∈ utf8Bytes c, b < 256 := by
  intro b hb
  unfold utf8Bytes at hb
  split_ifs at hb with h1 h2 h3 <;> simp at hb <;> omega

/-- The UTF-8 byte sequence of a string consists of bytes. -/
theorem strBytes_lt (s : String) : ∀ b ∈ strBytes s, b < 256 := by
  intro b hb
  unfold strBytes at hb
  rw [List.mem_flatMap] at hb
  obtain ⟨n, hn, hb⟩ := hb
  rw [List.mem_map] at hn
  obtain ⟨ch, _, rfl⟩ := hn
  exact utf8Bytes_lt (char_toNat_lt ch) b hb

/-- Claim C7: once a token is obtained, the raw field of the outbound
payload is the URL-safe base64 encoding of the UTF-8 bytes of the
envelope built as To, Subject and body separated by CRLF with a blank
line before the body; decoding that payload yields exactly those
envelope bytes; and at the concrete inputs of the scenario the envelope
is exactly the expected string. -/
theorem c7_payload_encoding (store : List CredRecord)
    (user_email to_addr subject message_body : String) (now : Nat)
    (refreshResp : TokenResponse) (sendResp : SendResponse) (tok : String)
    (h : (refresh_gmail_token store user_email now refreshResp).outcome = .ok tok) :
    (send_gmail_message store user_email to_addr subject message_body now refreshResp
        sendResp).payload =
      some (String.mk (b64url (strBytes (mkRawEmail to_addr subject message_body)))) ∧
    b64urlDecode (b64url (strBytes (mkRawEmail to_addr subject message_body))) =
      some (strBytes (mkRawEmail to_addr subject message_body)) ∧
    mkRawEmail "x@y.com" "Hi" "Body" = "To: x@y.com\r\nSubject: Hi\r\n\r\nBody" := by
  refine ⟨?_, b64url_roundtrip _ (strBytes_lt _), by decide⟩
  simp only [send_gmail_message, h]
  split <;> rfl

/-- Witness for claim C7 at the concrete scenario inputs with a valid
cached token. -/
theorem c7_witness :
    (send_gmail_message [⟨"u", "A1", "R1", "Bearer", "s", 2000, 500⟩] "u" "x@y.com" "Hi"
        "Body" 1000 ⟨200, none, none, none, none, none⟩ ⟨200, "ok"⟩).payload =
      some (String.mk (b64url (strBytes (mkRawEmail "x@y.com" "Hi" "Body")))) ∧
    b64urlDecode (b64url (strBytes (mkRawEmail "x@y.com" "Hi" "Body"))) =
      some (strBytes (mkRawEmail "x@y.com" "Hi" "Body")) ∧
    mkRawEmail "x@y.com" "Hi" "Body" = "To: x@y.com\r\nSubject: Hi\r\n\r\nBody" :=
  c7_payload_encoding [⟨"u", "A1", "R1", "Bearer", "s", 2000, 500⟩] "u" "x@y.com" "Hi"
    "Body" 1000 ⟨200, none, none, none, none, none⟩ ⟨200, "ok"⟩ "A1" (by decide)

end Backend
